import Mathlib

/-!
Verification of the BPMN diagram pipeline of `src/app.py`.

The program manipulates Python values produced by `json.loads`, so the
embedding works over a type `Json` of such values.  Python operations that can
raise (`d[k]`, `d.get(...)` on a non-dict, iteration of a non-iterable,
unhashable dict keys) are modelled in `Except String`, the error string naming
the Python exception class.  Modelling notes:
* Python `==` is modelled structurally; the numeric conflations `True == 1`
  and float/int equality are not modelled (numbers are embedded as `Int`).
* `repr`-style string escaping is not modelled; `str()` is only ever applied
  to hashable scalars in reachable code (line 150 runs after the dict
  comprehension of line 141 has already rejected unhashable ids).
-/

/-- A Python value as returned by `json.loads`: `null`/`bool`/`num`/`str`
scalars, lists, and string-keyed dicts (association lists, last key wins, as
`json.loads` keeps the last duplicate). -/
inductive Json where
  | null : Json
  | bool : Bool → Json
  | num : Int → Json
  | str : String → Json
  | arr : List Json → Json
  | obj : List (String × Json) → Json

/-- Lookup in a Python dict built by `json.loads`: the last binding of a
duplicated key wins. -/
def dictLookup (kvs : List (String × Json)) (k : String) : Option Json :=
  match kvs with
  | [] => none
  | (k2, v) :: rest =>
    match dictLookup rest k with
    | some v2 => some v2
    | none => if k2 == k then some v else none

/-- Python `d.get(k, dflt)`: raises `AttributeError` when the receiver is not
a dict. -/
def Json.get (j : Json) (k : String) (dflt : Json) : Except String Json :=
  match j with
  | .obj kvs => .ok ((dictLookup kvs k).getD dflt)
  | _ => .error "AttributeError"

/-- Python `d[k]` with a string key: `KeyError` for a dict without the key,
`TypeError` for every non-dict receiver (string/list subscripts require
integer indices). -/
def Json.subscript (j : Json) (k : String) : Except String Json :=
  match j with
  | .obj kvs =>
    match dictLookup kvs k with
    | some v => .ok v
    | none => .error "KeyError"
  | _ => .error "TypeError"

/-- Python hashability of a JSON value: lists and dicts are unhashable. -/
def Json.hashable : Json → Bool
  | .arr _ => false
  | .obj _ => false
  | _ => true

/-- Python `for x in j`: lists yield elements, dicts their keys, strings
their one-character substrings; scalars raise `TypeError`. -/
def pyIter (j : Json) : Except String (List Json) :=
  match j with
  | .arr xs => .ok xs
  | .obj kvs => .ok (kvs.map (fun kv => Json.str kv.1))
  | .str s => .ok (s.data.map (fun c => Json.str (String.mk [c])))
  | _ => .error "TypeError"

/-- Python `==` between the hashable scalars that can appear as dict keys;
`False` between values of different shapes, as Python compares a string with
a non-string. -/
def Json.scalarEq : Json → Json → Bool
  | .null, .null => true
  | .bool a, .bool b => a == b
  | .num a, .num b => a == b
  | .str a, .str b => a == b
  | _, _ => false

/-- Python `j == s` for a string literal `s`. -/
def Json.isStrEq (j : Json) (s : String) : Bool :=
  match j with
  | .str t => t == s
  | _ => false

/-- Python `str(x)` for the hashable scalars; `none` for lists/dicts, which
in reachable code never make it to an f-string (they are rejected as
unhashable dict keys first). -/
def pyStrScalar : Json → Option String
  | .null => some "None"
  | .bool b => some (if b then "True" else "False")
  | .num n => some (toString n)
  | .str s => some s
  | .arr _ => none
  | .obj _ => none

/-- Left-to-right effectful map over a list in `Except`, the semantics of a
Python `for` loop that can raise: stops at the first exception. -/
def mapMEx (f : α → Except String β) : List α → Except String (List β)
  | [] => .ok []
  | x :: xs =>
    match f x with
    | .error e => .error e
    | .ok y =>
      match mapMEx f xs with
      | .error e => .error e
      | .ok ys => .ok (y :: ys)

/-- One node statement emitted by a `c.node(...)` call (lines 159-177): the
graphviz node name and label keep the Python values that were passed. -/
structure NodeStmt where
  name : Json
  label : Json
  shape : String
  style : String
  fillcolor : String
  fontcolor : String
  width : Option String
  height : Option String
  fixedsize : Option String

/-- One swimlane cluster: subgraph name, the `c.attr` attributes of line
151-152, and the node statements emitted inside it. -/
structure Cluster where
  name : String
  label : Json
  style : String
  color : String
  fillcolor : String
  fontsize : String
  fontname : String
  nodes : List NodeStmt

/-- One `dot.edge` call (lines 181-185). -/
structure EdgeStmt where
  tail_name : Json
  head_name : Json
  label : Json

/-- The rendered diagram: the `Digraph` after `generate_bpmn_diagram` ran,
holding the global attribute statements of lines 131-134, the clusters, and
the edge statements. -/
structure Dot where
  comment : String
  graph_attrs : List (String × String)
  node_attrs : List (String × String)
  edge_attrs : List (String × String)
  clusters : List Cluster
  edges : List EdgeStmt

/-- The fixed 5-color palette of line 148. -/
def colors : List String := ["#E3F2FD", "#F3E5F5", "#E8F5E9", "#FFF3E0", "#FCE4EC"]

/-- The finished digraph: the fixed comment of line 131, the global
attribute statements of lines 132-134, and the accumulated clusters and edge
statements. -/
def mkDot (clusters : List Cluster) (edges : List EdgeStmt) : Dot :=
  { comment := "BPMN Process Flow",
    graph_attrs := [("rankdir", "LR"), ("splines", "ortho"),
                    ("nodesep", "0.8"), ("ranksep", "1.5"),
                    ("bgcolor", "transparent")],
    node_attrs := [("fontname", "Arial"), ("fontsize", "11")],
    edge_attrs := [("fontname", "Arial"), ("fontsize", "9"),
                   ("color", "#555555")],
    clusters := clusters,
    edges := edges }

/-- One step of the dict comprehension of line 141: `sl["id"]` (KeyError /
TypeError possible) used as a dict key (TypeError when unhashable). -/
def swimlaneKey (sl : Json) : Except String Json :=
  match sl.subscript "id" with
  | .error e => .error e
  | .ok k => if k.hashable then .ok k else .error "TypeError"

/-- Line 141: `{sl["id"]: [] for sl in swimlanes}` — collects every swimlane
id, raising on the first bad one. -/
def swimlaneKeys (swimlanes : List Json) : Except String (List Json) :=
  mapMEx swimlaneKey swimlanes

/-- Line 143 and the membership test of line 144 for one node:
`node.get("swimlane", "default")` (AttributeError on a non-dict node), and
the `in` test raises `TypeError` when the key is unhashable. -/
def nodeGroupKey (node : Json) : Except String Json :=
  match node.get "swimlane" (Json.str "default") with
  | .error e => .error e
  | .ok k => if k.hashable then .ok k else .error "TypeError"

/-- Lines 142-145: the grouping loop runs over all nodes before any cluster
is emitted; only its exceptions matter here, the group contents are recovered
by `bucket`. -/
def checkNodes (nodes : List Json) : Except String Unit :=
  match mapMEx nodeGroupKey nodes with
  | .error e => .error e
  | .ok _ => .ok ()

/-- The list `swimlane_nodes[k]` after the loop of lines 142-145: the nodes,
in input order, whose `swimlane` key (default `"default"`) equals `k`.  Only
queried for `k` a collected swimlane id, for which the `in` test of line 144
reduces to this equality. -/
def bucket (nodes : List Json) (k : Json) : List Json :=
  nodes.filter (fun n =>
    match nodeGroupKey n with
    | .ok k2 => Json.scalarEq k2 k
    | .error _ => false)

/-- Lines 156-177: style one node.  Every branch first evaluates
`node["id"]` and then `node["label"]`, so the two subscripts are hoisted
above the branch on `node.get("type", "task")`. -/
def renderNode (node : Json) : Except String NodeStmt :=
  match node.get "type" (Json.str "task") with
  | .error e => .error e
  | .ok node_type =>
  match node.subscript "id" with
  | .error e => .error e
  | .ok nid =>
  match node.subscript "label" with
  | .error e => .error e
  | .ok nlabel =>
  .ok (
    if node_type.isStrEq "start_event" then
      { name := nid, label := nlabel, shape := "circle", style := "filled",
        fillcolor := "#4CAF50", fontcolor := "white",
        width := some "0.6", height := some "0.6", fixedsize := some "true" }
    else if node_type.isStrEq "end_event" then
      { name := nid, label := nlabel, shape := "doublecircle", style := "filled",
        fillcolor := "#F44336", fontcolor := "white",
        width := some "0.6", height := some "0.6", fixedsize := some "true" }
    else if node_type.isStrEq "task" then
      { name := nid, label := nlabel, shape := "box", style := "rounded,filled",
        fillcolor := "#2196F3", fontcolor := "white",
        width := none, height := none, fixedsize := none }
    else if node_type.isStrEq "gateway" then
      { name := nid, label := nlabel, shape := "diamond", style := "filled",
        fillcolor := "#FFC107", fontcolor := "black",
        width := none, height := none, fixedsize := none }
    else if node_type.isStrEq "message" then
      { name := nid, label := nlabel, shape := "note", style := "filled",
        fillcolor := "#FF9800", fontcolor := "white",
        width := none, height := none, fixedsize := none }
    else
      { name := nid, label := nlabel, shape := "box", style := "rounded,filled",
        fillcolor := "#9E9E9E", fontcolor := "white",
        width := none, height := none, fixedsize := none })

/-- Lines 149-177 for one swimlane: subgraph name `f'cluster_{sl["id"]}'`
(line 150), the cluster attributes of lines 151-152 with the palette color at
`idx % len(colors)`, then the node statements for `swimlane_nodes.get(
sl["id"], [])`. -/
def renderCluster (nodes : List Json) (idx : Nat) (sl : Json) : Except String Cluster :=
  match swimlaneKey sl with
  | .error e => .error e
  | .ok k =>
  match sl.subscript "label" with
  | .error e => .error e
  | .ok slabel =>
  match mapMEx renderNode (bucket nodes k) with
  | .error e => .error e
  | .ok rendered =>
  .ok { name := "cluster_" ++ (pyStrScalar k).getD "",
        label := slabel, style := "filled", color := "#666666",
        fillcolor := colors.getD (idx % colors.length) "",
        fontsize := "14", fontname := "Arial Bold", nodes := rendered }

/-- The loop `for idx, swimlane in enumerate(swimlanes)` of line 149. -/
def renderClusters (nodes : List Json) (idx : Nat) : List Json → Except String (List Cluster)
  | [] => .ok []
  | sl :: rest =>
    match renderCluster nodes idx sl with
    | .error e => .error e
    | .ok c =>
      match renderClusters nodes (idx + 1) rest with
      | .error e => .error e
      | .ok cs => .ok (c :: cs)

/-- Lines 181-185 for one edge: `edge["from"]`, `edge["to"]`,
`edge.get("label", "")`, in that evaluation order. -/
def renderEdge (edge : Json) : Except String EdgeStmt :=
  match edge.subscript "from" with
  | .error e => .error e
  | .ok t =>
  match edge.subscript "to" with
  | .error e => .error e
  | .ok h =>
  match edge.get "label" (Json.str "") with
  | .error e => .error e
  | .ok lab => .ok { tail_name := t, head_name := h, label := lab }

/-- `generate_bpmn_diagram` (lines 127-187) over a `json.loads` value, in the
source's evaluation order: the `.get` calls of lines 137-138, iteration and
id collection of line 141, the grouping loop of 142-145, the cluster loop of
149-177, and the edge loop of 180-185.  An uncaught Python exception is
`.error`. -/
def generate_bpmn_diagram (diagram_data : Json) : Except String Dot :=
  match diagram_data.get "swimlanes" (Json.arr []) with
  | .error e => .error e
  | .ok swimlanesJ =>
  match diagram_data.get "nodes" (Json.arr []) with
  | .error e => .error e
  | .ok nodesJ =>
  match pyIter swimlanesJ with
  | .error e => .error e
  | .ok swimlanes =>
  match swimlaneKeys swimlanes with
  | .error e => .error e
  | .ok _ =>
  match pyIter nodesJ with
  | .error e => .error e
  | .ok nodes =>
  match checkNodes nodes with
  | .error e => .error e
  | .ok _ =>
  match renderClusters nodes 0 swimlanes with
  | .error e => .error e
  | .ok clusters =>
  match diagram_data.get "edges" (Json.arr []) with
  | .error e => .error e
  | .ok edgesJ =>
  match pyIter edgesJ with
  | .error e => .error e
  | .ok edges =>
  match mapMEx renderEdge edges with
  | .error e => .error e
  | .ok rendered_edges =>
  .ok (mkDot clusters rendered_edges)

/-- A ProcessGraph-shaped input: the aggregate
`{swimlanes: [...], nodes: [...], edges: [...]}` of the data model. -/
def mkGraph (sls ns es : List Json) : Json :=
  Json.obj [("swimlanes", Json.arr sls), ("nodes", Json.arr ns), ("edges", Json.arr es)]

/-- Python truthiness of a `json.loads` value (line 266's first conjunct). -/
def Json.truthy : Json → Bool
  | .null => false
  | .bool b => b
  | .num n => n != 0
  | .str s => !s.isEmpty
  | .arr xs => !xs.isEmpty
  | .obj kvs => !kvs.isEmpty

/-- Is `n` an infix of `h`?  Python `needle in haystack` for strings. -/
def listInfixOf (n : List Char) : List Char → Bool
  | [] => n.isEmpty
  | c :: t => n.isPrefixOf (c :: t) || listInfixOf n t

/-- Python `k in j` for a string `k` (line 266): dict key membership, list
membership by `==`, substring test for strings, `TypeError` on scalars. -/
def pyContains (k : String) (j : Json) : Except String Bool :=
  match j with
  | .obj kvs => .ok (kvs.any (fun kv => kv.1 == k))
  | .arr xs => .ok (xs.any (fun x => Json.scalarEq x (Json.str k)))
  | .str s => .ok (listInfixOf k.data s.data)
  | _ => .error "TypeError"

/-- Outcome of the completion-endpoint call inside
`get_structured_process_flow`: a raised exception (transport/auth/rate
limit), or a response body that either is not valid JSON (`none`: the
`json.loads` of line 118 raises `JSONDecodeError`) or parses to a value. -/
inductive CompletionResult where
  | transportError (msg : String)
  | response (body : Option Json)

/-- Lines 59-125: `get_structured_process_flow`.  With no client (lines
64-66), on a transport exception (123-125) or a `JSONDecodeError` (119-122)
it shows an error and returns `None`; otherwise it returns the parsed body
(line 118). -/
def get_structured_process_flow (clientOk : Bool) (r : CompletionResult) : Option Json :=
  if !clientOk then none
  else
    match r with
    | .transportError _ => none
    | .response none => none
    | .response (some j) => some j

/-- The Streamlit session state of lines 204-208 that the generate handler
reads and writes. -/
structure SessionState where
  diagram_generated : Bool
  diagram_data : Option Json
  bpmn_xml : Option Json
  graph_obj : Option Dot

/-- Python `str.strip()` over the characters of a string. -/
def pyStrip (s : String) : String :=
  String.mk (((s.data.dropWhile Char.isWhitespace).reverse.dropWhile Char.isWhitespace).reverse)

/-- Lines 261-275: one click of the generate button.  Returns the session
state afterwards and the uncaught exception, if any.  The success branch
assigns `diagram_data` (267), `bpmn_xml` (268), `graph_obj` (269) and
`diagram_generated` (270) in that order, so an exception raised at line 269
leaves the first two already overwritten; the failure branch (273-275) only
resets `diagram_generated`. -/
def generate_click (clientOk : Bool) (user_input : String) (r : CompletionResult)
    (s : SessionState) : SessionState × Option String :=
  if (pyStrip user_input).length < 20 then (s, none)
  else
    match get_structured_process_flow clientOk r with
    | none => ({ s with diagram_generated := false }, none)
    | some j =>
      if !j.truthy then ({ s with diagram_generated := false }, none)
      else
        match pyContains "diagram_json" j with
        | .error e => (s, some e)
        | .ok false => ({ s with diagram_generated := false }, none)
        | .ok true =>
          match pyContains "bpmn_xml" j with
          | .error e => (s, some e)
          | .ok false => ({ s with diagram_generated := false }, none)
          | .ok true =>
            match j.subscript "diagram_json" with
            | .error e => (s, some e)
            | .ok dj =>
              match j.subscript "bpmn_xml" with
              | .error e => ({ s with diagram_data := some dj }, some e)
              | .ok bx =>
                match generate_bpmn_diagram dj with
                | .error e =>
                  ({ s with diagram_data := some dj, bpmn_xml := some bx }, some e)
                | .ok d =>
                  ({ s with diagram_data := some dj, bpmn_xml := some bx,
                            graph_obj := some d, diagram_generated := true }, none)

/-- The shape/fill part of a node statement. -/
structure NodeStyle where
  shape : String
  style : String
  fillcolor : String
  fontcolor : String
  width : Option String
  height : Option String
  fixedsize : Option String

/-- Forget a node statement's name and label. -/
def NodeStmt.styleOf (s : NodeStmt) : NodeStyle :=
  { shape := s.shape, style := s.style, fillcolor := s.fillcolor,
    fontcolor := s.fontcolor, width := s.width, height := s.height,
    fixedsize := s.fixedsize }

/-- The type-to-style table as the spec words it: the five recognized type
values and a neutral gray fallback for every other value. -/
def claimedStyle (ty : Json) : NodeStyle :=
  if ty.isStrEq "start_event" then
    { shape := "circle", style := "filled", fillcolor := "#4CAF50",
      fontcolor := "white", width := some "0.6", height := some "0.6",
      fixedsize := some "true" }
  else if ty.isStrEq "end_event" then
    { shape := "doublecircle", style := "filled", fillcolor := "#F44336",
      fontcolor := "white", width := some "0.6", height := some "0.6",
      fixedsize := some "true" }
  else if ty.isStrEq "task" then
    { shape := "box", style := "rounded,filled", fillcolor := "#2196F3",
      fontcolor := "white", width := none, height := none, fixedsize := none }
  else if ty.isStrEq "gateway" then
    { shape := "diamond", style := "filled", fillcolor := "#FFC107",
      fontcolor := "black", width := none, height := none, fixedsize := none }
  else if ty.isStrEq "message" then
    { shape := "note", style := "filled", fillcolor := "#FF9800",
      fontcolor := "white", width := none, height := none, fixedsize := none }
  else
    { shape := "box", style := "rounded,filled", fillcolor := "#9E9E9E",
      fontcolor := "white", width := none, height := none, fixedsize := none }

/-- The `type` value a node is styled by: its `"type"` entry, defaulting to
`"task"` (also for a non-dict, which never reaches the style switch). -/
def nodeTypeOf (n : Json) : Json :=
  match n with
  | .obj kvs => (dictLookup kvs "type").getD (Json.str "task")
  | _ => Json.str "task"

/-- The connector an edge entry is expected to produce: its `from`/`to`
values and its label, the empty string when absent. -/
def edgeOf (e : Json) : EdgeStmt :=
  match e with
  | .obj kvs =>
    { tail_name := (dictLookup kvs "from").getD Json.null,
      head_name := (dictLookup kvs "to").getD Json.null,
      label := (dictLookup kvs "label").getD (Json.str "") }
  | _ => { tail_name := Json.null, head_name := Json.null, label := Json.str "" }

/-- A well-formed swimlane record of the data model. -/
structure SwimlaneR where
  id : String
  label : String

/-- A well-formed node record of the data model. -/
structure NodeR where
  id : String
  label : String
  ty : String
  swimlane : String

/-- A well-formed edge record of the data model. -/
structure EdgeR where
  src : String
  dst : String
  label : Option String

/-- Encode a swimlane record as its JSON object. -/
def SwimlaneR.toJson (s : SwimlaneR) : Json :=
  Json.obj [("id", Json.str s.id), ("label", Json.str s.label)]

/-- Encode a node record as its JSON object (the `"type"` key carries `ty`). -/
def NodeR.toJson (n : NodeR) : Json :=
  Json.obj [("id", Json.str n.id), ("label", Json.str n.label),
            ("type", Json.str n.ty), ("swimlane", Json.str n.swimlane)]

/-- Encode an edge record as its JSON object; the optional label key is
present exactly when the record has one. -/
def EdgeR.toJson (e : EdgeR) : Json :=
  match e.label with
  | some l => Json.obj [("from", Json.str e.src), ("to", Json.str e.dst),
                        ("label", Json.str l)]
  | none => Json.obj [("from", Json.str e.src), ("to", Json.str e.dst)]

/-- The JSON ProcessGraph built from well-formed records. -/
def graphJson (sls : List SwimlaneR) (ns : List NodeR) (es : List EdgeR) : Json :=
  mkGraph (sls.map SwimlaneR.toJson) (ns.map NodeR.toJson) (es.map EdgeR.toJson)


/-- A swimlane entry that the renderer accepts without raising: an object
whose `"id"` is present and hashable and whose `"label"` is present. -/
def FieldOkSwimlane (j : Json) : Prop :=
  ∃ kvs, j = Json.obj kvs ∧
    (∃ v, dictLookup kvs "id" = some v ∧ v.hashable = true) ∧
    (∃ v, dictLookup kvs "label" = some v)

/-- A node entry that the renderer accepts without raising: an object with
`"id"` and `"label"` present and, when a `"swimlane"` key is present, a
hashable value under it. -/
def FieldOkNode (j : Json) : Prop :=
  ∃ kvs, j = Json.obj kvs ∧
    (∃ v, dictLookup kvs "id" = some v) ∧
    (∃ v, dictLookup kvs "label" = some v) ∧
    (dictLookup kvs "swimlane" = none ∨
      ∃ v, dictLookup kvs "swimlane" = some v ∧ v.hashable = true)

/-- An edge entry that the renderer accepts without raising: an object with
`"from"` and `"to"` present (their values need not name any node). -/
def FieldOkEdge (j : Json) : Prop :=
  ∃ kvs, j = Json.obj kvs ∧
    (∃ v, dictLookup kvs "from" = some v) ∧
    (∃ v, dictLookup kvs "to" = some v)

/-! ### Computation lemmas -/

/-- `mapMEx` succeeds with as many results as inputs. -/
theorem mapMEx_ok_length {α β : Type} {f : α → Except String β} {l : List α}
    {out : List β} (h : mapMEx f l = .ok out) : out.length = l.length := by
  induction l generalizing out with
  | nil => simp [mapMEx] at h; subst h; rfl
  | cons x xs ih =>
    simp only [mapMEx] at h
    cases hx : f x with
    | error e => rw [hx] at h; cases h
    | ok y =>
      rw [hx] at h
      cases hxs : mapMEx f xs with
      | error e => rw [hxs] at h; cases h
      | ok ys =>
        rw [hxs] at h
        cases h
        simp [ih hxs]

/-- Every result of a successful `mapMEx` comes from some input. -/
theorem mapMEx_ok_mem {α β : Type} {f : α → Except String β} {l : List α}
    {out : List β} (h : mapMEx f l = .ok out) :
    ∀ y ∈ out, ∃ x ∈ l, f x = .ok y := by
  induction l generalizing out with
  | nil => simp [mapMEx] at h; subst h; intro y hy; cases hy
  | cons x xs ih =>
    simp only [mapMEx] at h
    cases hx : f x with
    | error e => rw [hx] at h; cases h
    | ok y0 =>
      rw [hx] at h
      cases hxs : mapMEx f xs with
      | error e => rw [hxs] at h; cases h
      | ok ys =>
        rw [hxs] at h
        cases h
        intro y hy
        rcases List.mem_cons.mp hy with rfl | hmem
        · exact ⟨x, List.mem_cons_self x xs, hx⟩
        · rcases ih hxs y hmem with ⟨x2, hx2, hfx2⟩
          exact ⟨x2, List.mem_cons_of_mem x hx2, hfx2⟩

/-- `mapMEx` succeeds exactly when `f` succeeds on every element. -/
theorem mapMEx_isOk_iff {α β : Type} {f : α → Except String β} {l : List α} :
    (∃ out, mapMEx f l = .ok out) ↔ ∀ x ∈ l, ∃ y, f x = .ok y := by
  induction l with
  | nil => simp [mapMEx]
  | cons x xs ih =>
    constructor
    · rintro ⟨out, h⟩
      simp only [mapMEx] at h
      cases hx : f x with
      | error e => rw [hx] at h; cases h
      | ok y0 =>
        rw [hx] at h
        cases hxs : mapMEx f xs with
        | error e => rw [hxs] at h; cases h
        | ok ys =>
          intro z hz
          rcases List.mem_cons.mp hz with rfl | hmem
          · exact ⟨y0, hx⟩
          · exact (ih.mp ⟨ys, hxs⟩) z hmem
    · intro h
      rcases h x (List.mem_cons_self x xs) with ⟨y0, hx⟩
      rcases ih.mpr (fun z hz => h z (List.mem_cons_of_mem x hz)) with ⟨ys, hxs⟩
      exact ⟨y0 :: ys, by simp [mapMEx, hx, hxs]⟩

/-- When `f` is pointwise the explicit `g`, `mapMEx` is a plain map. -/
theorem mapMEx_eq_map {α β : Type} {f : α → Except String β} {l : List α}
    {g : α → β} (h : ∀ x ∈ l, f x = .ok (g x)) :
    mapMEx f l = .ok (l.map g) := by
  induction l with
  | nil => rfl
  | cons x xs ih =>
    simp only [mapMEx, h x (List.mem_cons_self x xs),
      ih (fun z hz => h z (List.mem_cons_of_mem x hz)), List.map_cons]

/-- Index-wise reading of a successful `mapMEx`. -/
theorem mapMEx_ok_get {α β : Type} {f : α → Except String β} {l : List α}
    {out : List β} (h : mapMEx f l = .ok out) (i : Nat) (h1 : i < l.length)
    (h2 : i < out.length) : f (l.get ⟨i, h1⟩) = .ok (out.get ⟨i, h2⟩) := by
  induction l generalizing out i with
  | nil => cases h1
  | cons x xs ih =>
    simp only [mapMEx] at h
    cases hx : f x with
    | error e => rw [hx] at h; cases h
    | ok y0 =>
      rw [hx] at h
      cases hxs : mapMEx f xs with
      | error e => rw [hxs] at h; cases h
      | ok ys =>
        rw [hxs] at h
        cases h
        cases i with
        | zero => simpa using hx
        | succ n =>
          exact ih hxs n (Nat.lt_of_succ_lt_succ h1) (Nat.lt_of_succ_lt_succ h2)

/-- A successful cluster always carries the palette color of its index. -/
theorem renderCluster_ok_fillcolor {nodes : List Json} {idx : Nat} {sl : Json}
    {c : Cluster} (h : renderCluster nodes idx sl = .ok c) :
    c.fillcolor = colors.getD (idx % colors.length) "" := by
  unfold renderCluster at h
  cases h1 : swimlaneKey sl with
  | error e => simp only [h1] at h; cases h
  | ok k =>
    simp only [h1] at h
    cases h2 : sl.subscript "label" with
    | error e => simp only [h2] at h; cases h
    | ok slabel =>
      simp only [h2] at h
      cases h3 : mapMEx renderNode (bucket nodes k) with
      | error e => simp only [h3] at h; cases h
      | ok rendered =>
        simp only [h3, Except.ok.injEq] at h
        subst h
        rfl

/-- A successful cluster's node statements are the rendering of the bucket of
its swimlane id. -/
theorem renderCluster_ok_nodes {nodes : List Json} {idx : Nat} {sl : Json}
    {c : Cluster} (h : renderCluster nodes idx sl = .ok c) :
    ∃ k, swimlaneKey sl = .ok k ∧ mapMEx renderNode (bucket nodes k) = .ok c.nodes := by
  unfold renderCluster at h
  cases h1 : swimlaneKey sl with
  | error e => simp only [h1] at h; cases h
  | ok k =>
    simp only [h1] at h
    cases h2 : sl.subscript "label" with
    | error e => simp only [h2] at h; cases h
    | ok slabel =>
      simp only [h2] at h
      cases h3 : mapMEx renderNode (bucket nodes k) with
      | error e => simp only [h3] at h; cases h
      | ok rendered =>
        simp only [h3, Except.ok.injEq] at h
        subst h
        exact ⟨k, rfl, h3⟩

/-- `renderCluster` only reads the node list through the bucket of the
swimlane's own id. -/
theorem renderCluster_congr {nodes nodes2 : List Json} {idx : Nat} {sl : Json}
    (h : ∀ k, swimlaneKey sl = .ok k → bucket nodes k = bucket nodes2 k) :
    renderCluster nodes idx sl = renderCluster nodes2 idx sl := by
  unfold renderCluster
  cases h1 : swimlaneKey sl with
  | error e => rfl
  | ok k => simp only [h k h1]

/-- Same node lists bucket-wise, same cluster loop. -/
theorem renderClusters_congr {nodes nodes2 : List Json} {idx : Nat}
    {sls : List Json}
    (h : ∀ sl ∈ sls, ∀ k, swimlaneKey sl = .ok k → bucket nodes k = bucket nodes2 k) :
    renderClusters nodes idx sls = renderClusters nodes2 idx sls := by
  induction sls generalizing idx with
  | nil => rfl
  | cons sl rest ih =>
    simp only [renderClusters]
    rw [renderCluster_congr (h sl (List.mem_cons_self sl rest)),
        ih (fun z hz => h z (List.mem_cons_of_mem sl hz))]

/-- The cluster loop emits as many clusters as swimlanes. -/
theorem renderClusters_ok_length {nodes : List Json} {idx : Nat}
    {sls : List Json} {cs : List Cluster}
    (h : renderClusters nodes idx sls = .ok cs) : cs.length = sls.length := by
  induction sls generalizing idx cs with
  | nil => simp [renderClusters] at h; subst h; rfl
  | cons sl rest ih =>
    simp only [renderClusters] at h
    cases h1 : renderCluster nodes idx sl with
    | error e => simp only [h1] at h; cases h
    | ok c =>
      simp only [h1] at h
      cases h2 : renderClusters nodes (idx + 1) rest with
      | error e => simp only [h2] at h; cases h
      | ok cs2 =>
        simp only [h2, Except.ok.injEq] at h
        subst h
        simp [ih h2]

/-- Index-wise reading of a successful cluster loop. -/
theorem renderClusters_ok_get {nodes : List Json} {idx : Nat}
    {sls : List Json} {cs : List Cluster}
    (h : renderClusters nodes idx sls = .ok cs) (i : Nat) (h1 : i < sls.length)
    (h2 : i < cs.length) :
    renderCluster nodes (idx + i) (sls.get ⟨i, h1⟩) = .ok (cs.get ⟨i, h2⟩) := by
  induction sls generalizing idx cs i with
  | nil => cases h1
  | cons sl rest ih =>
    simp only [renderClusters] at h
    cases hc : renderCluster nodes idx sl with
    | error e => simp only [hc] at h; cases h
    | ok c =>
      simp only [hc] at h
      cases hrest : renderClusters nodes (idx + 1) rest with
      | error e => simp only [hrest] at h; cases h
      | ok cs2 =>
        simp only [hrest, Except.ok.injEq] at h
        subst h
        cases i with
        | zero => simpa using hc
        | succ n =>
          have h3 : n < rest.length := Nat.lt_of_succ_lt_succ h1
          have h4 : n < cs2.length := Nat.lt_of_succ_lt_succ h2
          have h5 := ih hrest n h3 h4
          have heq : idx + (n + 1) = idx + 1 + n := by omega
          rw [heq]
          exact h5

/-- Every emitted cluster comes from some swimlane. -/
theorem renderClusters_ok_mem {nodes : List Json} {idx : Nat}
    {sls : List Json} {cs : List Cluster}
    (h : renderClusters nodes idx sls = .ok cs) :
    ∀ c ∈ cs, ∃ sl ∈ sls, ∃ j, renderCluster nodes j sl = .ok c := by
  induction sls generalizing idx cs with
  | nil =>
    simp [renderClusters] at h
    subst h
    intro c hc
    cases hc
  | cons sl rest ih =>
    simp only [renderClusters] at h
    cases hc : renderCluster nodes idx sl with
    | error e => simp only [hc] at h; cases h
    | ok c0 =>
      simp only [hc] at h
      cases hrest : renderClusters nodes (idx + 1) rest with
      | error e => simp only [hrest] at h; cases h
      | ok cs2 =>
        simp only [hrest, Except.ok.injEq] at h
        subst h
        intro c hmem
        rcases List.mem_cons.mp hmem with rfl | hmem2
        · exact ⟨sl, List.mem_cons_self sl rest, idx, hc⟩
        · rcases ih hrest c hmem2 with ⟨sl2, hsl2, j, hj⟩
          exact ⟨sl2, List.mem_cons_of_mem sl hsl2, j, hj⟩

/-- The cluster loop succeeds when each swimlane renders at every index. -/
theorem renderClusters_ok_of_forall {nodes : List Json} {idx : Nat}
    {sls : List Json}
    (h : ∀ sl ∈ sls, ∀ j, ∃ c, renderCluster nodes j sl = .ok c) :
    ∃ cs, renderClusters nodes idx sls = .ok cs := by
  induction sls generalizing idx with
  | nil => exact ⟨[], rfl⟩
  | cons sl rest ih =>
    rcases h sl (List.mem_cons_self sl rest) idx with ⟨c, hc⟩
    rcases @ih (idx + 1) (fun z hz => h z (List.mem_cons_of_mem sl hz)) with ⟨cs, hcs⟩
    exact ⟨c :: cs, by simp [renderClusters, hc, hcs]⟩

/-- On a ProcessGraph-shaped input the pipeline reduces to its four fallible
stages. -/
theorem generate_mkGraph (sls ns es : List Json) :
    generate_bpmn_diagram (mkGraph sls ns es) =
      (match swimlaneKeys sls with
       | .error e => .error e
       | .ok _ =>
         match checkNodes ns with
         | .error e => .error e
         | .ok _ =>
           match renderClusters ns 0 sls with
           | .error e => .error e
           | .ok clusters =>
             match mapMEx renderEdge es with
             | .error e => .error e
             | .ok redges => .ok (mkDot clusters redges)) := rfl

/-- Inversion of a successful run on a ProcessGraph-shaped input. -/
theorem generate_mkGraph_ok {sls ns es : List Json} {d : Dot}
    (h : generate_bpmn_diagram (mkGraph sls ns es) = .ok d) :
    ∃ keys clusters redges,
      swimlaneKeys sls = .ok keys ∧ checkNodes ns = .ok () ∧
      renderClusters ns 0 sls = .ok clusters ∧
      mapMEx renderEdge es = .ok redges ∧ d = mkDot clusters redges := by
  rw [generate_mkGraph] at h
  cases h1 : swimlaneKeys sls with
  | error e => simp only [h1] at h; cases h
  | ok keys =>
    simp only [h1] at h
    cases h2 : checkNodes ns with
    | error e => simp only [h2] at h; cases h
    | ok u =>
      simp only [h2] at h
      cases h3 : renderClusters ns 0 sls with
      | error e => simp only [h3] at h; cases h
      | ok clusters =>
        simp only [h3] at h
        cases h4 : mapMEx renderEdge es with
        | error e => simp only [h4] at h; cases h
        | ok redges =>
          simp only [h4, Except.ok.injEq] at h
          exact ⟨keys, clusters, redges, rfl, rfl, rfl, rfl, h.symm⟩

/-- A node statement only comes out of `renderNode` for an object node whose
`id`/`label` it copies, styled by the type-to-style table at the node's
(defaulted) `type`. -/
theorem renderNode_ok_struct {x : Json} {s : NodeStmt} (h : renderNode x = .ok s) :
    ∃ kvs, x = Json.obj kvs ∧ dictLookup kvs "id" = some s.name ∧
      dictLookup kvs "label" = some s.label ∧
      s.styleOf = claimedStyle (nodeTypeOf x) := by
  cases x with
  | null => cases h
  | bool b => cases h
  | num n => cases h
  | str t => cases h
  | arr xs => cases h
  | obj kvs =>
    unfold renderNode at h
    simp only [Json.get] at h
    cases h2 : (Json.obj kvs).subscript "id" with
    | error e => simp only [h2] at h; cases h
    | ok nid =>
      simp only [h2] at h
      cases h3 : (Json.obj kvs).subscript "label" with
      | error e => simp only [h3] at h; cases h
      | ok nlabel =>
        simp only [h3, Except.ok.injEq] at h
        have hname : s.name = nid := by rw [← h]; split_ifs <;> rfl
        have hlabel : s.label = nlabel := by rw [← h]; split_ifs <;> rfl
        refine ⟨kvs, rfl, ?_, ?_, ?_⟩
        · simp only [Json.subscript] at h2
          cases hl : dictLookup kvs "id" with
          | none => simp only [hl] at h2; cases h2
          | some v =>
            simp only [hl, Except.ok.injEq] at h2
            rw [hname, h2]
        · simp only [Json.subscript] at h3
          cases hl : dictLookup kvs "label" with
          | none => simp only [hl] at h3; cases h3
          | some v =>
            simp only [hl, Except.ok.injEq] at h3
            rw [hlabel, h3]
        · rw [← h]
          unfold nodeTypeOf claimedStyle NodeStmt.styleOf
          split_ifs <;> rfl

/-- A field-complete node renders without raising. -/
theorem renderNode_ok_of_fieldOk {x : Json} (h : FieldOkNode x) :
    ∃ s, renderNode x = .ok s := by
  rcases h with ⟨kvs, rfl, ⟨vi, hvi⟩, ⟨vl, hvl⟩, hsw⟩
  unfold renderNode
  simp only [Json.get, Json.subscript, hvi, hvl]
  exact ⟨_, rfl⟩

/-- A field-complete node passes the grouping loop. -/
theorem nodeGroupKey_ok_of_fieldOk {x : Json} (h : FieldOkNode x) :
    ∃ k, nodeGroupKey x = .ok k := by
  rcases h with ⟨kvs, rfl, _, _, hsw⟩
  unfold nodeGroupKey
  simp only [Json.get]
  rcases hsw with hnone | ⟨v, hv, hhash⟩
  · rw [hnone]
    exact ⟨Json.str "default", rfl⟩
  · rw [hv]
    simp only [Option.getD_some, hhash]
    exact ⟨v, by simp⟩

/-- A field-complete swimlane passes the id collection of line 141. -/
theorem swimlaneKey_ok_of_fieldOk {sl : Json} (h : FieldOkSwimlane sl) :
    ∃ k, swimlaneKey sl = .ok k := by
  rcases h with ⟨kvs, rfl, ⟨vi, hvi, hhash⟩, _⟩
  unfold swimlaneKey
  simp only [Json.subscript, hvi, hhash]
  exact ⟨vi, by simp⟩

/-- A field-complete swimlane among field-complete nodes yields a cluster at
any index. -/
theorem renderCluster_ok_of_fieldOk {sl : Json} {nodes : List Json}
    (hsl : FieldOkSwimlane sl) (hns : ∀ n ∈ nodes, FieldOkNode n) (idx : Nat) :
    ∃ c, renderCluster nodes idx sl = .ok c := by
  rcases hsl with ⟨kvs, rfl, ⟨vi, hvi, hhash⟩, ⟨vl, hvl⟩⟩
  have hkey : swimlaneKey (Json.obj kvs) = .ok vi := by
    unfold swimlaneKey
    simp [Json.subscript, hvi, hhash]
  have hmap : ∃ out, mapMEx renderNode (bucket nodes vi) = .ok out :=
    mapMEx_isOk_iff.mpr
      (fun x hx => renderNode_ok_of_fieldOk (hns x (List.mem_of_mem_filter hx)))
  rcases hmap with ⟨out, hout⟩
  unfold renderCluster
  simp only [hkey, Json.subscript, hvl, hout]
  exact ⟨_, rfl⟩

/-- Field-complete nodes pass the grouping loop of lines 142-145. -/
theorem checkNodes_ok_of_fieldOk {nodes : List Json}
    (h : ∀ n ∈ nodes, FieldOkNode n) : checkNodes nodes = .ok () := by
  rcases mapMEx_isOk_iff.mpr (fun x hx => nodeGroupKey_ok_of_fieldOk (h x hx)) with ⟨out, hout⟩
  unfold checkNodes
  simp only [hout]

/-- A field-complete edge renders to exactly its expected connector. -/
theorem renderEdge_ok_of_fieldOk {e : Json} (h : FieldOkEdge e) :
    renderEdge e = .ok (edgeOf e) := by
  rcases h with ⟨kvs, rfl, ⟨vf, hvf⟩, ⟨vt, hvt⟩⟩
  unfold renderEdge edgeOf
  simp [Json.subscript, Json.get, hvf, hvt]

/-- A key that `dictLookup` misses is matched by no entry. -/
theorem dictLookup_none_any_false {kvs : List (String × Json)} {k : String}
    (h : dictLookup kvs k = none) :
    kvs.any (fun kv => kv.1 == k) = false := by
  induction kvs with
  | nil => rfl
  | cons kv rest ih =>
    obtain ⟨k2, v⟩ := kv
    unfold dictLookup at h
    cases hrest : dictLookup rest k with
    | some v2 => rw [hrest] at h; cases h
    | none =>
      rw [hrest] at h
      by_cases hk : (k2 == k) = true
      · rw [if_pos hk] at h; cases h
      · simp only [List.any_cons, ih hrest, Bool.or_false]
        simpa using hk

/-! ### Claim theorems -/

/-- C1, counterexample: a graph whose single swimlane entry is an object
with no fields at all makes `generate_bpmn_diagram` raise `KeyError` at the
dict comprehension of line 141, so render does fail on a malformed graph. -/
theorem C1_counterexample :
    generate_bpmn_diagram (Json.obj [("swimlanes", Json.arr [Json.obj []])]) =
      Except.error "KeyError" := rfl

/-- C1, amended: render always terminates (it is a total function of the
embedding), and on every ProcessGraph-shaped input whose swimlane, node and
edge entries are objects carrying their required fields it returns a diagram
without raising — dangling `swimlane` references, dangling edge endpoints,
and arbitrary `type` values are all tolerated, since no cross-reference
condition is assumed here. -/
theorem C1_render_ok_on_wellshaped (sls ns es : List Json)
    (h1 : ∀ sl ∈ sls, FieldOkSwimlane sl)
    (h2 : ∀ n ∈ ns, FieldOkNode n)
    (h3 : ∀ e ∈ es, FieldOkEdge e) :
    ∃ d, generate_bpmn_diagram (mkGraph sls ns es) = .ok d := by
  rw [generate_mkGraph]
  rcases mapMEx_isOk_iff.mpr (fun sl hsl => swimlaneKey_ok_of_fieldOk (h1 sl hsl)) with
    ⟨keys, hkeys⟩
  have hcheck := checkNodes_ok_of_fieldOk h2
  rcases @renderClusters_ok_of_forall ns 0 sls
      (fun sl hsl j => renderCluster_ok_of_fieldOk (h1 sl hsl) h2 j) with ⟨cs, hcs⟩
  have hedges := mapMEx_eq_map (fun e he => renderEdge_ok_of_fieldOk (h3 e he))
  unfold swimlaneKeys
  simp only [hkeys, hcheck, hcs, hedges]
  exact ⟨_, rfl⟩

/-- C1 witness: a graph with one complete swimlane, one node whose
`swimlane` dangles, and one edge whose endpoints name no node, renders. -/
theorem C1_render_ok_on_wellshaped_witness :
    ∃ d, generate_bpmn_diagram (mkGraph
      [Json.obj [("id", Json.str "a"), ("label", Json.str "A")]]
      [Json.obj [("id", Json.str "n1"), ("label", Json.str "N"),
                 ("swimlane", Json.str "ghost")]]
      [Json.obj [("from", Json.str "x"), ("to", Json.str "y")]]) = .ok d :=
  C1_render_ok_on_wellshaped _ _ _
    (fun sl hsl => by
      have h := List.mem_singleton.mp hsl
      subst h
      exact ⟨_, rfl, ⟨Json.str "a", rfl, rfl⟩, ⟨Json.str "A", rfl⟩⟩)
    (fun n hn => by
      have h := List.mem_singleton.mp hn
      subst h
      exact ⟨_, rfl, ⟨Json.str "n1", rfl⟩, ⟨Json.str "N", rfl⟩,
        Or.inr ⟨Json.str "ghost", rfl, rfl⟩⟩)
    (fun e he => by
      have h := List.mem_singleton.mp he
      subst h
      exact ⟨_, rfl, ⟨Json.str "x", rfl⟩, ⟨Json.str "y", rfl⟩⟩)

/-- C6: the renderer is a pure function of the ProcessGraph — the source of
lines 127-187 reads no clock and draws no randomness, and the embedding
reflects this, so rendering the same graph twice gives byte-identical
diagrams. -/
theorem C6_render_deterministic (g : Json) :
    generate_bpmn_diagram g = generate_bpmn_diagram g := rfl

/-- C10: a node object with no `"type"` key at all is styled by the
`node.get("type", "task")` default of line 156 as a task — blue rounded
box — not by the gray fallback branch. -/
theorem C10_missing_type_styled_as_task (kvs : List (String × Json)) (i l : Json)
    (hty : dictLookup kvs "type" = none)
    (hid : dictLookup kvs "id" = some i)
    (hlab : dictLookup kvs "label" = some l) :
    renderNode (Json.obj kvs) = .ok
      { name := i, label := l, shape := "box", style := "rounded,filled",
        fillcolor := "#2196F3", fontcolor := "white",
        width := none, height := none, fixedsize := none } := by
  unfold renderNode
  simp only [Json.get, Json.subscript, hty, hid, hlab]
  rfl

/-- C10 witness: a concrete typeless node comes out as the blue task box. -/
theorem C10_witness :
    renderNode (Json.obj [("id", Json.str "n"), ("label", Json.str "L")]) = .ok
      { name := Json.str "n", label := Json.str "L", shape := "box",
        style := "rounded,filled", fillcolor := "#2196F3", fontcolor := "white",
        width := none, height := none, fixedsize := none } :=
  C10_missing_type_styled_as_task _ _ _ rfl rfl rfl

/-- C5: on a successful render of a ProcessGraph-shaped input there is one
cluster per swimlane, the cluster at position `i` wears the palette color at
`i % 5`, and positions `i` and `i + 5` wear the same color. -/
theorem C5_palette_mod5 (sls ns es : List Json) (d : Dot)
    (hok : generate_bpmn_diagram (mkGraph sls ns es) = .ok d) :
    d.clusters.length = sls.length ∧
    (∀ i (h : i < d.clusters.length),
        (d.clusters.get ⟨i, h⟩).fillcolor = colors.getD (i % 5) "") ∧
    (∀ i (h5 : i + 5 < d.clusters.length) (h0 : i < d.clusters.length),
        (d.clusters.get ⟨i + 5, h5⟩).fillcolor = (d.clusters.get ⟨i, h0⟩).fillcolor) := by
  rcases generate_mkGraph_ok hok with ⟨keys, clusters, redges, hk, hc, hcl, he, hd⟩
  subst hd
  simp only [mkDot]
  have hlen : clusters.length = sls.length := renderClusters_ok_length hcl
  have hfill : ∀ i (h : i < clusters.length),
      (clusters.get ⟨i, h⟩).fillcolor = colors.getD (i % 5) "" := by
    intro i h
    have h2 : i < sls.length := by rw [← hlen]; exact h
    have hstep := renderClusters_ok_get hcl i h2 h
    have hfc := renderCluster_ok_fillcolor hstep
    simpa [colors] using hfc
  refine ⟨hlen, hfill, ?_⟩
  intro i h5 h0
  rw [hfill (i + 5) h5, hfill i h0, Nat.add_mod_right]

/-- C5 witness: a six-swimlane graph renders, exercising the wrap-around. -/
theorem C5_witness :
    ∃ d, generate_bpmn_diagram (mkGraph
        ((List.range 6).map (fun i =>
          Json.obj [("id", Json.str (toString i)), ("label", Json.str (toString i))]))
        [] []) = .ok d ∧
      d.clusters.length = 6 ∧
      (∀ i (h5 : i + 5 < d.clusters.length) (h0 : i < d.clusters.length),
        (d.clusters.get ⟨i + 5, h5⟩).fillcolor = (d.clusters.get ⟨i, h0⟩).fillcolor) := by
  refine ⟨_, rfl, ?_⟩
  have h := C5_palette_mod5
    ((List.range 6).map (fun i =>
      Json.obj [("id", Json.str (toString i)), ("label", Json.str (toString i))]))
    [] [] _ rfl
  exact ⟨h.1, h.2.2⟩

/-- Inserting a node whose group key differs from `k` leaves the bucket at
`k` unchanged. -/
theorem bucket_insert {ns1 ns2 : List Json} {n kn k : Json}
    (hkey : nodeGroupKey n = .ok kn) (hne : Json.scalarEq kn k = false) :
    bucket (ns1 ++ n :: ns2) k = bucket (ns1 ++ ns2) k := by
  unfold bucket
  rw [List.filter_append, List.filter_append, List.filter_cons]
  simp [hkey, hne]

/-- C2: a node whose `swimlane` value matches no swimlane id contributes
nothing — inserting it anywhere in the node list of a graph that renders
successfully yields the very same successful output, so no shape is emitted
for it and the call still does not crash. -/
theorem C2_dangling_swimlane_node_dropped (sls ns1 ns2 es : List Json)
    (n kn : Json) (d : Dot)
    (hok : generate_bpmn_diagram (mkGraph sls (ns1 ++ ns2) es) = .ok d)
    (hkey : nodeGroupKey n = .ok kn)
    (hdangling : ∀ sl ∈ sls, ∀ k, swimlaneKey sl = .ok k → Json.scalarEq kn k = false) :
    generate_bpmn_diagram (mkGraph sls (ns1 ++ n :: ns2) es) = .ok d := by
  rcases generate_mkGraph_ok hok with ⟨keys, clusters, redges, hk, hc, hcl, he, hd⟩
  subst hd
  rw [generate_mkGraph]
  have hcheck : checkNodes (ns1 ++ n :: ns2) = .ok () := by
    have hall : ∀ x ∈ ns1 ++ ns2, ∃ y, nodeGroupKey x = .ok y := by
      have hex : ∃ out, mapMEx nodeGroupKey (ns1 ++ ns2) = .ok out := by
        unfold checkNodes at hc
        cases hm : mapMEx nodeGroupKey (ns1 ++ ns2) with
        | error e => rw [hm] at hc; cases hc
        | ok out => exact ⟨out, rfl⟩
      exact mapMEx_isOk_iff.mp hex
    have hall2 : ∀ x ∈ ns1 ++ n :: ns2, ∃ y, nodeGroupKey x = .ok y := by
      intro x hx
      rcases List.mem_append.mp hx with hx1 | hx2
      · exact hall x (List.mem_append.mpr (Or.inl hx1))
      · rcases List.mem_cons.mp hx2 with rfl | hx3
        · exact ⟨kn, hkey⟩
        · exact hall x (List.mem_append.mpr (Or.inr hx3))
    rcases mapMEx_isOk_iff.mpr hall2 with ⟨out, hout⟩
    unfold checkNodes
    simp only [hout]
  have hclnew : renderClusters (ns1 ++ n :: ns2) 0 sls = .ok clusters := by
    rw [renderClusters_congr
      (fun sl hsl k hk2 => bucket_insert hkey (hdangling sl hsl k hk2))]
    exact hcl
  simp only [hk, hcheck, hclnew, he]

/-- C2 witness: adding a node pointing at the absent swimlane `"ghost"`
leaves the one-cluster output untouched. -/
theorem C2_witness :
    generate_bpmn_diagram (mkGraph
      [Json.obj [("id", Json.str "a"), ("label", Json.str "A")]]
      [Json.obj [("id", Json.str "n1"), ("label", Json.str "N"),
                 ("swimlane", Json.str "ghost")]]
      []) = .ok (mkDot
        [{ name := "cluster_a", label := Json.str "A", style := "filled",
           color := "#666666", fillcolor := "#E3F2FD", fontsize := "14",
           fontname := "Arial Bold", nodes := [] }] []) :=
  C2_dangling_swimlane_node_dropped
    [Json.obj [("id", Json.str "a"), ("label", Json.str "A")]] [] [] []
    (Json.obj [("id", Json.str "n1"), ("label", Json.str "N"),
               ("swimlane", Json.str "ghost")])
    (Json.str "ghost") _ rfl rfl
    (by
      intro sl hsl k hk
      have hs := List.mem_singleton.mp hsl
      subst hs
      have hcomp : swimlaneKey (Json.obj [("id", Json.str "a"),
          ("label", Json.str "A")]) = Except.ok (Json.str "a") := rfl
      rw [hcomp] at hk
      cases hk
      rfl)

/-- C3: whenever the rest of the graph renders, the edge loop emits exactly
one connector per entry of the edges list, in order, labeled by the entry's
`label` (empty string when absent) — the `from`/`to` values are copied as
given and need not name any existing or kept node, and such edges never make
the render fail. -/
theorem C3_one_connector_per_edge (sls ns es : List Json) (d0 : Dot)
    (hok : generate_bpmn_diagram (mkGraph sls ns []) = .ok d0)
    (hfe : ∀ e ∈ es, FieldOkEdge e) :
    generate_bpmn_diagram (mkGraph sls ns es) =
      .ok { d0 with edges := es.map edgeOf } := by
  rcases generate_mkGraph_ok hok with ⟨keys, clusters, redges, hk, hc, hcl, he, hd⟩
  have hred : redges = [] := by
    have h2 : (Except.ok [] : Except String (List EdgeStmt)) = .ok redges := he
    cases h2
    rfl
  subst hred
  subst hd
  rw [generate_mkGraph]
  have hedges := mapMEx_eq_map (fun e hee => renderEdge_ok_of_fieldOk (hfe e hee))
  simp only [hk, hc, hcl, hedges]
  rfl

/-- C3 witness: one dangling edge renders as one labeled connector. -/
theorem C3_witness :
    generate_bpmn_diagram (mkGraph
      [Json.obj [("id", Json.str "a"), ("label", Json.str "A")]] []
      [Json.obj [("from", Json.str "x"), ("to", Json.str "y")]]) =
    .ok (mkDot
      [{ name := "cluster_a", label := Json.str "A", style := "filled",
         color := "#666666", fillcolor := "#E3F2FD", fontsize := "14",
         fontname := "Arial Bold", nodes := [] }]
      [{ tail_name := Json.str "x", head_name := Json.str "y",
         label := Json.str "" }]) :=
  C3_one_connector_per_edge
    [Json.obj [("id", Json.str "a"), ("label", Json.str "A")]] []
    [Json.obj [("from", Json.str "x"), ("to", Json.str "y")]] _ rfl
    (fun e he => by
      have h := List.mem_singleton.mp he
      subst h
      exact ⟨_, rfl, ⟨Json.str "x", rfl⟩, ⟨Json.str "y", rfl⟩⟩)

/-- C4: every node statement of a successful render comes from a node object
of the input whose `id`/`label` it carries and whose (defaulted) `type`
selects its shape, style and fill per the type-to-style table — including
the gray fallback for unrecognized values, with no type value able to raise. -/
theorem C4_shape_by_type (sls ns es : List Json) (d : Dot)
    (hok : generate_bpmn_diagram (mkGraph sls ns es) = .ok d) :
    ∀ c ∈ d.clusters, ∀ s ∈ c.nodes, ∃ nd ∈ ns, ∃ kvs,
      nd = Json.obj kvs ∧ dictLookup kvs "id" = some s.name ∧
      dictLookup kvs "label" = some s.label ∧
      s.styleOf = claimedStyle (nodeTypeOf nd) := by
  rcases generate_mkGraph_ok hok with ⟨keys, clusters, redges, hk, hc, hcl, he, hd⟩
  subst hd
  intro c hcmem s hsmem
  rcases renderClusters_ok_mem hcl c hcmem with ⟨sl, hslmem, j, hrc⟩
  rcases renderCluster_ok_nodes hrc with ⟨k, hkk, hmap⟩
  rcases mapMEx_ok_mem hmap s hsmem with ⟨x, hxmem, hrn⟩
  have hxin : x ∈ ns := List.mem_of_mem_filter hxmem
  rcases renderNode_ok_struct hrn with ⟨kvs, rfl, hid, hlab, hstyle⟩
  exact ⟨Json.obj kvs, hxin, kvs, rfl, hid, hlab, hstyle⟩

/-- C4 witness: a concrete gateway node yields the yellow diamond, traced
back to its source node. -/
theorem C4_witness :
    ∃ nd ∈ [Json.obj [("id", Json.str "n1"), ("label", Json.str "N"),
        ("type", Json.str "gateway"), ("swimlane", Json.str "a")]], ∃ kvs,
      nd = Json.obj kvs ∧
      dictLookup kvs "id" = some (Json.str "n1") ∧
      dictLookup kvs "label" = some (Json.str "N") ∧
      NodeStmt.styleOf
        { name := Json.str "n1", label := Json.str "N", shape := "diamond",
          style := "filled", fillcolor := "#FFC107", fontcolor := "black",
          width := none, height := none, fixedsize := none } =
        claimedStyle (nodeTypeOf nd) :=
  C4_shape_by_type
    [Json.obj [("id", Json.str "a"), ("label", Json.str "A")]]
    [Json.obj [("id", Json.str "n1"), ("label", Json.str "N"),
               ("type", Json.str "gateway"), ("swimlane", Json.str "a")]]
    [] _ rfl
    { name := "cluster_a", label := Json.str "A", style := "filled",
      color := "#666666", fillcolor := "#E3F2FD", fontsize := "14",
      fontname := "Arial Bold",
      nodes := [{ name := Json.str "n1", label := Json.str "N",
                  shape := "diamond", style := "filled", fillcolor := "#FFC107",
                  fontcolor := "black", width := none, height := none,
                  fixedsize := none }] }
    (List.mem_cons_self _ _)
    { name := Json.str "n1", label := Json.str "N", shape := "diamond",
      style := "filled", fillcolor := "#FFC107", fontcolor := "black",
      width := none, height := none, fixedsize := none }
    (List.mem_cons_self _ _)

/-- Prefixing with `"cluster_"` is injective. -/
theorem cluster_prefix_inj : Function.Injective (fun t : String => "cluster_" ++ t) := by
  intro a b h
  change ("cluster_" ++ a) = ("cluster_" ++ b) at h
  have h2 : ("cluster_" ++ a).data = ("cluster_" ++ b).data := by rw [h]
  simp [String.data_append] at h2
  cases a
  cases b
  exact congrArg String.mk h2

/-- The cluster loop over encoded swimlane records succeeds and names the
clusters `cluster_<id>` in input order. -/
theorem renderClusters_encoded (ns : List Json) (idx : Nat) (sls : List SwimlaneR)
    (hns : ∀ n ∈ ns, FieldOkNode n) :
    ∃ cs, renderClusters ns idx (sls.map SwimlaneR.toJson) = .ok cs ∧
      cs.map Cluster.name = sls.map (fun s => "cluster_" ++ s.id) := by
  induction sls generalizing idx with
  | nil => exact ⟨[], rfl, rfl⟩
  | cons s rest ih =>
    rcases @ih (idx + 1) with ⟨cs, hcs, hnames⟩
    rcases (@mapMEx_isOk_iff Json NodeStmt renderNode
        (bucket ns (Json.str s.id))).mpr
        (fun x hx => renderNode_ok_of_fieldOk (hns x (List.mem_of_mem_filter hx)))
      with ⟨out, hout⟩
    have hrc : renderCluster ns idx (SwimlaneR.toJson s) = .ok
        { name := "cluster_" ++ s.id, label := Json.str s.label, style := "filled",
          color := "#666666", fillcolor := colors.getD (idx % colors.length) "",
          fontsize := "14", fontname := "Arial Bold", nodes := out } := by
      unfold renderCluster
      simp only [show swimlaneKey (SwimlaneR.toJson s) = Except.ok (Json.str s.id) from rfl,
        show (SwimlaneR.toJson s).subscript "label" = Except.ok (Json.str s.label) from rfl,
        hout]
      rfl
    exact ⟨({ name := "cluster_" ++ s.id, label := Json.str s.label, style := "filled", color := "#666666", fillcolor := colors.getD (idx % colors.length) "", fontsize := "14", fontname := "Arial Bold", nodes := out } : Cluster) :: cs, by simp only [List.map_cons, renderClusters, hrc, hcs], by simp [hnames]⟩

/-- C7: a well-formed ProcessGraph of records with pairwise-distinct swimlane
ids renders to a non-empty diagram with exactly one cluster per swimlane
entry, named `cluster_<id>`, in input order, all distinct. -/
theorem C7_cluster_per_swimlane (sls : List SwimlaneR) (ns : List NodeR)
    (es : List EdgeR) (huniq : (sls.map SwimlaneR.id).Nodup) :
    ∃ d, generate_bpmn_diagram (graphJson sls ns es) = .ok d ∧
      d.graph_attrs ≠ [] ∧
      d.clusters.map Cluster.name = sls.map (fun s => "cluster_" ++ s.id) ∧
      (d.clusters.map Cluster.name).Nodup := by
  have hfn : ∀ n ∈ ns.map NodeR.toJson, FieldOkNode n := by
    intro x hx
    rcases List.mem_map.mp hx with ⟨m, hm, rfl⟩
    exact ⟨_, rfl, ⟨Json.str m.id, rfl⟩, ⟨Json.str m.label, rfl⟩,
      Or.inr ⟨Json.str m.swimlane, rfl, rfl⟩⟩
  rcases renderClusters_encoded (ns.map NodeR.toJson) 0 sls hfn with ⟨cs, hcs, hnames⟩
  rcases (@mapMEx_isOk_iff Json Json swimlaneKey (sls.map SwimlaneR.toJson)).mpr
      (fun sl hsl => by
        rcases List.mem_map.mp hsl with ⟨s, hs, rfl⟩
        exact ⟨Json.str s.id, rfl⟩)
    with ⟨keys, hkeys⟩
  have hcheck : checkNodes (ns.map NodeR.toJson) = .ok () := checkNodes_ok_of_fieldOk hfn
  have hedges : mapMEx renderEdge (es.map EdgeR.toJson) =
      .ok ((es.map EdgeR.toJson).map edgeOf) :=
    mapMEx_eq_map (fun e he => by
      rcases List.mem_map.mp he with ⟨r, hr, rfl⟩
      refine renderEdge_ok_of_fieldOk ?_
      rcases r with ⟨src, dst, lab⟩
      cases lab with
      | none => exact ⟨_, rfl, ⟨Json.str src, rfl⟩, ⟨Json.str dst, rfl⟩⟩
      | some l => exact ⟨_, rfl, ⟨Json.str src, rfl⟩, ⟨Json.str dst, rfl⟩⟩)
  refine ⟨mkDot cs ((es.map EdgeR.toJson).map edgeOf), ?_, ?_, hnames, ?_⟩
  · unfold graphJson
    rw [generate_mkGraph]
    simp only [swimlaneKeys, hkeys, hcheck, hcs, hedges]
  · exact fun hcontra => List.noConfusion hcontra
  · show (cs.map Cluster.name).Nodup
    rw [hnames]
    have hmm : sls.map (fun s => "cluster_" ++ s.id) =
        (sls.map SwimlaneR.id).map (fun t => "cluster_" ++ t) := by
      rw [List.map_map]
      rfl
    rw [hmm]
    exact huniq.map cluster_prefix_inj

/-- C7 witness: two swimlanes, a node and a self-edge render to the two
expected clusters. -/
theorem C7_witness :
    ∃ d, generate_bpmn_diagram (graphJson
        [⟨"a", "A"⟩, ⟨"b", "B"⟩]
        [⟨"n1", "N", "task", "a"⟩]
        [⟨"n1", "n1", none⟩]) = .ok d ∧
      d.graph_attrs ≠ [] ∧
      d.clusters.map Cluster.name = ["cluster_a", "cluster_b"] ∧
      (d.clusters.map Cluster.name).Nodup := by
  rcases C7_cluster_per_swimlane [⟨"a", "A"⟩, ⟨"b", "B"⟩]
      [⟨"n1", "N", "task", "a"⟩] [⟨"n1", "n1", none⟩] (by decide)
    with ⟨d, h1, h2, h3, h4⟩
  refine ⟨d, h1, h2, ?_, h4⟩
  rw [h3]
  rfl

/-- The generate handler's failure branch for an object response missing a
required key: lines 273-275 run, only the flag is reset. -/
theorem generate_click_obj_missing {kvs : List (String × Json)} {s : SessionState}
    {input : String} (hlen : ¬ (pyStrip input).length < 20)
    (hmiss : dictLookup kvs "diagram_json" = none ∨ dictLookup kvs "bpmn_xml" = none) :
    generate_click true input (.response (some (Json.obj kvs))) s =
      ({ s with diagram_generated := false }, none) := by
  cases kvs with
  | nil =>
    simp [generate_click, get_structured_process_flow, Json.truthy, if_neg hlen]
  | cons hd tl =>
    have htr : Json.truthy (Json.obj (hd :: tl)) = true := by simp [Json.truthy]
    by_cases h1 : ((hd :: tl).any (fun kv => kv.1 == "diagram_json")) = true
    · have h2 : dictLookup (hd :: tl) "bpmn_xml" = none := by
        rcases hmiss with hm | hm
        · have h3 := dictLookup_none_any_false hm
          rw [h3] at h1
          cases h1
        · exact hm
      have h3 := dictLookup_none_any_false h2
      simp [generate_click, get_structured_process_flow, if_neg hlen, htr,
        pyContains, h1, h3]
    · rw [Bool.not_eq_true] at h1
      simp [generate_click, get_structured_process_flow, if_neg hlen, htr,
        pyContains, h1]

/-- C8: a completion response whose body is valid JSON — an object — but
lacks the top-level key `diagram_json` or `bpmn_xml` makes the request end
in the failure branch: an error is surfaced, no graph/XML pair is stored,
and no success state is produced. -/
theorem C8_missing_key_fails (kvs : List (String × Json)) (s : SessionState)
    (input : String) (hlen : ¬ (pyStrip input).length < 20)
    (hmiss : dictLookup kvs "diagram_json" = none ∨ dictLookup kvs "bpmn_xml" = none) :
    generate_click true input (.response (some (Json.obj kvs))) s =
      ({ s with diagram_generated := false }, none) :=
  generate_click_obj_missing hlen hmiss

/-- C8 witness: a response with `diagram_json` but no `bpmn_xml`. -/
theorem C8_witness :
    generate_click true "abcdefghijklmnopqrstuvwxyz"
      (.response (some (Json.obj [("diagram_json", Json.str "g")])))
      { diagram_generated := false, diagram_data := none, bpmn_xml := none,
        graph_obj := none } =
    ({ diagram_generated := false, diagram_data := none, bpmn_xml := none,
       graph_obj := none }, none) :=
  C8_missing_key_fails _ _ _ (by decide) (Or.inr rfl)

/-- C9, counterexample: with a stored successful pair
(`diagram_generated = true`), a failed request flips the generation status
flag to `False` (line 275), so the status that gates display and download is
not left unchanged. -/
theorem C9_counterexample :
    (generate_click true "abcdefghijklmnopqrstu" (.transportError "boom")
      { diagram_generated := true, diagram_data := some (Json.str "G"),
        bpmn_xml := some (Json.str "X"), graph_obj := none }).1.diagram_generated ≠
    ({ diagram_generated := true, diagram_data := some (Json.str "G"),
       bpmn_xml := some (Json.str "X"), graph_obj := none } : SessionState).diagram_generated := by
  decide

/-- C9, amended: on any extraction failure (transport error, malformed
response, or an object response missing a required key) the stored
`diagram_data`, `bpmn_xml` and `graph_obj` are left untouched and no
exception escapes, but `diagram_generated` is reset to `False`, disabling
display and download of the prior pair until the next success. -/
theorem C9_state_preserved_except_flag (clientOk : Bool) (input : String)
    (r : CompletionResult) (s : SessionState)
    (hlen : ¬ (pyStrip input).length < 20)
    (hfail : (∃ m, r = .transportError m) ∨ r = .response none ∨
      ∃ kvs, r = .response (some (Json.obj kvs)) ∧
        (dictLookup kvs "diagram_json" = none ∨ dictLookup kvs "bpmn_xml" = none)) :
    generate_click clientOk input r s = ({ s with diagram_generated := false }, none) := by
  rcases hfail with ⟨m, rfl⟩ | rfl | ⟨kvs, rfl, hmiss⟩
  · cases clientOk <;>
      simp [generate_click, get_structured_process_flow, if_neg hlen]
  · cases clientOk <;>
      simp [generate_click, get_structured_process_flow, if_neg hlen]
  · cases clientOk with
    | false => simp [generate_click, get_structured_process_flow, if_neg hlen]
    | true => exact generate_click_obj_missing hlen hmiss

/-- C9 witness: a malformed (non-JSON) response leaves the stored pair and
only resets the flag. -/
theorem C9_witness :
    generate_click true "abcdefghijklmnopqrstuv" (.response none)
      { diagram_generated := true, diagram_data := some (Json.str "G2"),
        bpmn_xml := some (Json.str "X2"), graph_obj := none } =
    ({ diagram_generated := false, diagram_data := some (Json.str "G2"),
       bpmn_xml := some (Json.str "X2"), graph_obj := none }, none) :=
  C9_state_preserved_except_flag true "abcdefghijklmnopqrstuv" (.response none)
    { diagram_generated := true, diagram_data := some (Json.str "G2"),
      bpmn_xml := some (Json.str "X2"), graph_obj := none }
    (by decide) (Or.inr (Or.inl rfl))
